import Mathlib

/-!
Verification of the ai-code-reviewer core pipeline against its specification.

The embedding follows the repository's three source files:
  * `multi_language_features.py` — `extract_general_features`
  * `model.py` — `BUG_LABELS`, `BUG_SUGGESTIONS`, `load_model`, `predict_bug`,
    `check_syntax`, `run_code_safely`
  * `app.py` — the Analyze-Code handler and the quality score

Code strings are modelled as `List Char`.  Python's regex word character
class `\w` is modelled over its ASCII fragment (letters, digits,
underscore); all concrete inputs used below are ASCII.  External Python
capabilities (`ast.parse`, `exec`, the pickled classifier) are opaque in
the source and are modelled as explicit parameters (oracles).
-/

/-- ASCII fragment of Python's regex word character class `\w`:
letters, digits and underscore. -/
def wordChar (c : Char) : Bool :=
  c.isAlpha || c.isDigit || c = '_'

/-- Splits a character list at newline characters, mirroring Python's
`code.split("\n")`: the result always has one more segment than the
number of `'\n'` characters (an empty input yields `[[]]`). -/
def splitNl : List Char → List (List Char)
  | [] => [[]]
  | c :: cs =>
    if c = '\n' then [] :: splitNl cs
    else
      match splitNl cs with
      | [] => [[c]]
      | l :: ls => (c :: l) :: ls

/-- Maximal runs of word characters in the text.  A regex such as
`\b(for|while)\b` matches exactly those runs that equal one of the
alternatives, so `len(re.findall(...))` is the number of runs among the
keywords. -/
def wordRunsGo : List Char → List Char → List (List Char)
  | [], acc => if acc = [] then [] else [acc.reverse]
  | c :: cs, acc =>
    if wordChar c then wordRunsGo cs (c :: acc)
    else if acc = [] then wordRunsGo cs []
    else acc.reverse :: wordRunsGo cs []

def wordRuns (cs : List Char) : List (List Char) :=
  wordRunsGo cs []

/-- `len(re.findall(r"\b(kw1|kw2|...)\b", code))`: the number of maximal
word runs equal to one of the keywords. -/
def countKeywords (kws : List (List Char)) (cs : List Char) : Nat :=
  ((wordRuns cs).filter (fun r => kws.contains r)).length

/-- `bool(re.search(r"\b(kw1|kw2|...)\b", code))`. -/
def hasKeyword (kws : List (List Char)) (cs : List Char) : Bool :=
  (wordRuns cs).any (fun r => kws.contains r)

/-- The fixed-shape record produced by the Feature Extractor
(`multi_language_features.py`). -/
structure FeatureRecord where
  num_lines : Nat
  num_functions : Nat
  num_loops : Nat
  nested_depth : Nat
  has_try_except : Bool
  avg_var_name_length : Nat
  complexity_score : Nat
  deriving DecidableEq

def loopKeywords : List (List Char) :=
  ["for".toList, "while".toList]

def tryKeywords : List (List Char) :=
  ["try".toList, "catch".toList, "except".toList]

/-- Language-dependent function-count patterns of
`extract_general_features` (`multi_language_features.py`, lines 14-23). -/
def numFunctionsOf (code : List Char) (language : String) : Nat :=
  if language = "Python" then countKeywords ["def".toList] code
  else if language = "Java" then
    countKeywords ["public".toList, "private".toList, "protected".toList] code
  else if language = "C++" then
    countKeywords
      ["int".toList, "void".toList, "float".toList, "double".toList,
        "string".toList] code
  else if language = "JavaScript" then countKeywords ["function".toList] code
  else 0

/-- `extract_general_features(code, language)`
(`multi_language_features.py`, lines 3-40). -/
def extract_general_features (code : List Char) (language : String) :
    FeatureRecord :=
  let num_loops := countKeywords loopKeywords code
  let num_functions := numFunctionsOf code language
  { num_lines := (splitNl code).length
    num_functions := num_functions
    num_loops := num_loops
    -- '\x7b' is the left-brace character, `code.count("{")`
    nested_depth := code.count '\x7b'
    has_try_except := hasKeyword tryKeywords code
    avg_var_name_length := 5
    complexity_score := min 10 (num_loops + num_functions) }

/-- The AI code score of the Analyze-Code handler (`app.py`, line 91):
`max(0, 100 - features["complexity_score"] * 8)`. -/
def score (features : FeatureRecord) : Int :=
  max 0 (100 - (features.complexity_score : Int) * 8)

/-- Python's `round` to an integer: round half to even (banker's
rounding). -/
def rhe (x : ℚ) : ℤ :=
  if x - ⌊x⌋ < 1 / 2 then ⌊x⌋
  else if 1 / 2 < x - ⌊x⌋ then ⌊x⌋ + 1
  else if ⌊x⌋ % 2 = 0 then ⌊x⌋ else ⌊x⌋ + 1

/-- Python's `round(x, 1)`: one decimal digit, half to even. -/
def pyRound1 (x : ℚ) : ℚ :=
  (rhe (10 * x) : ℚ) / 10

/-- `BUG_LABELS` (`model.py`, lines 18-23).  The external classifier
contract fixes the four classes `{0,1,2,3}`, modelled as `Fin 4`. -/
def BUG_LABELS : Fin 4 → String
  | 0 => "No Bug (Clean Code)"
  | 1 => "Performance Issue"
  | 2 => "Logical Error"
  | 3 => "Code Smell"

/-- `BUG_SUGGESTIONS` (`model.py`, lines 26-49). -/
def BUG_SUGGESTIONS : Fin 4 → List String
  | 0 =>
    ["✅ Code looks clean! No major issues detected.",
      "Consider adding docstrings for documentation."]
  | 1 =>
    ["⚠️ Optimize loops — avoid unnecessary iterations.",
      "Use list comprehensions instead of manual loops where possible.",
      "Consider using built-in functions (map, filter, sum) for better performance.",
      "Reduce nested depth to improve readability and speed."]
  | 2 =>
    ["🔍 Check your conditional logic — edge cases may not be handled.",
      "Add input validation to prevent unexpected behavior.",
      "Add try-except blocks to catch runtime errors.",
      "Test with boundary values (0, negative numbers, empty inputs)."]
  | 3 =>
    ["🧹 Use descriptive variable names instead of single letters.",
      "Break large functions into smaller, reusable ones.",
      "Remove unused variables and imports.",
      "Follow PEP 8 naming conventions."]

/-- The opaque pre-trained classifier artifact: categorical `predict` and
`predict_proba` over a 7-element numeric vector, 4 fixed classes in
stable index order. -/
structure TrainedClassifier where
  predict : (Fin 7 → ℚ) → Fin 4
  predict_proba : (Fin 7 → ℚ) → Fin 4 → ℚ

/-- The fixed `feature_order` vector assembly of `predict_bug`
(`model.py`, lines 76-81): `[num_lines, num_functions, num_loops,
nested_depth, has_try_except, avg_var_name_length, complexity_score]`
(`True` is the number 1 when fed to numpy). -/
def toFeatureVector (f : FeatureRecord) : Fin 7 → ℚ :=
  ![(f.num_lines : ℚ), (f.num_functions : ℚ), (f.num_loops : ℚ),
    (f.nested_depth : ℚ), (if f.has_try_except then 1 else 0),
    (f.avg_var_name_length : ℚ), (f.complexity_score : ℚ)]

structure ClassificationResult where
  bug_type : Fin 4
  label : String
  confidence : ℚ
  suggestions : List String
  all_probabilities : List (String × ℚ)
  deriving DecidableEq

/-- `max(confidence_scores)` over the 4-element probability vector. -/
def maxProb (p : Fin 4 → ℚ) : ℚ :=
  max (max (p 0) (p 1)) (max (p 2) (p 3))

/-- The pure part of `predict_bug` (`model.py`, lines 76-97), after the
model has been obtained.  `BUG_LABELS.get(prediction, "Unknown")` and
`BUG_SUGGESTIONS.get(prediction, [])` always hit the table because the
artifact's classes are exactly `{0,1,2,3}`. -/
def predict_bug (m : TrainedClassifier) (features : FeatureRecord) :
    ClassificationResult :=
  let v := toFeatureVector features
  let p := m.predict_proba v
  { bug_type := m.predict v
    label := BUG_LABELS (m.predict v)
    confidence := pyRound1 (maxProb p * 100)
    suggestions := BUG_SUGGESTIONS (m.predict v)
    -- the dict comprehension `for i, p in enumerate(confidence_scores)`
    -- unrolled over the 4 classes in index order
    all_probabilities :=
      [(BUG_LABELS 0, pyRound1 (p 0 * 100)), (BUG_LABELS 1, pyRound1 (p 1 * 100)),
        (BUG_LABELS 2, pyRound1 (p 2 * 100)), (BUG_LABELS 3, pyRound1 (p 3 * 100))] }

/-- `ModelUnavailable`: `load_model` raises `FileNotFoundError` when the
on-disk artifact does not exist (`model.py`, lines 54-60). -/
inductive ModelError where
  | ModelUnavailable
  deriving DecidableEq

/-- `load_model()` (`model.py`, lines 54-60), over the state of the
on-disk artifact (`none` = `trained_model.pkl` absent or unreadable). -/
def load_model (artifact : Option TrainedClassifier) :
    Except ModelError TrainedClassifier :=
  match artifact with
  | none => .error .ModelUnavailable
  | some m => .ok m

/-- `predict_bug(features)` including its initial `model = load_model()`
call (`model.py`, line 73). -/
def predict_bugE (artifact : Option TrainedClassifier)
    (features : FeatureRecord) : Except ModelError ClassificationResult :=
  match load_model artifact with
  | .error e => .error e
  | .ok m => .ok (predict_bug m features)

/-- A sequence of `predict_bug` requests served by one process, with the
number of artifact loads performed: every call executes
`model = load_model()` (`model.py`, line 73) before predicting, and no
caching, memoization or module-level handle exists anywhere in the
repository, so each request performs exactly one `joblib.load` of the
artifact.  Returns the classification results and the total load count. -/
def runRequests (m : TrainedClassifier) :
    List FeatureRecord → List ClassificationResult × Nat
  | [] => ([], 0)
  | f :: rest =>
    let r := runRequests m rest
    (predict_bug m f :: r.1, 1 + r.2)

/-- A Python `SyntaxError` raised by `ast.parse`: its `lineno` and
`msg` attributes. -/
structure SyntaxErr where
  lineno : Nat
  msg : String
  deriving DecidableEq

structure SyntaxResult where
  valid : Bool
  error : Option String
  deriving DecidableEq

/-- Oracle for the external `ast.parse` capability: `none` when the text
parses, `some e` when parsing raises `SyntaxError e`. -/
def ParseOracle : Type :=
  List Char → Option SyntaxErr

/-- `check_syntax(code)` (`model.py`, lines 100-113): try `ast.parse`;
on success `valid=True, error=None`; on `SyntaxError` the f-string
`f"Syntax Error at line {e.lineno}: {e.msg}"`. -/
def check_syntax (parseO : ParseOracle) (code : List Char) : SyntaxResult :=
  match parseO code with
  | none => { valid := true, error := none }
  | some e =>
    { valid := false
      error := some ("Syntax Error at line " ++ toString e.lineno ++ ": " ++ e.msg) }

/-- A Python exception value: class name and message. -/
structure PyExc where
  name : String
  msg : String
  deriving DecidableEq

/-- Outcome of `exec(code, safe_globals)`: normal termination, or a
raised exception.  `isException` records whether the raised class
derives from `Exception`; classes deriving only from `BaseException`
(`SystemExit`, `KeyboardInterrupt`, `BaseException` itself — reachable
from the allow-listed name `Exception` via `Exception.__base__`) do
not, and are not matched by an `except Exception` clause. -/
inductive ExecOutcome where
  | ok
  | raises (isException : Bool) (e : PyExc)
  deriving DecidableEq

def ExecOracle : Type :=
  List Char → ExecOutcome

structure RunResult where
  success : Bool
  error : Option String
  deriving DecidableEq

/-- `run_code_safely(code)` (`model.py`, lines 116-143): `exec` in the
restricted namespace under `try`/`except Exception as e`; a caught
exception yields `f"{type(e).__name__}: {str(e)}"`; an uncaught one
(`.error`) propagates to the caller. -/
def run_code_safely (execO : ExecOracle) (code : List Char) :
    Except PyExc RunResult :=
  match execO code with
  | .ok => .ok { success := true, error := none }
  | .raises true e =>
    .ok { success := false, error := some (e.name ++ ": " ++ e.msg) }
  | .raises false e => .error e

/-- Python's `str.strip()` as used in `if not code_input.strip()`
(`app.py`, line 62). -/
def stripped (cs : List Char) : List Char :=
  ((cs.dropWhile Char.isWhitespace).reverse.dropWhile Char.isWhitespace).reverse

/-- One analysis result record (`app.py`, lines 93-101; the wall-clock
`time` field is presentation data and is omitted). -/
structure AnalysisRecord where
  language : String
  syntaxRes : SyntaxResult
  runtime : RunResult
  features : FeatureRecord
  prediction : Option ClassificationResult
  score : Int
  deriving DecidableEq

/-- The Analyze-Code handler (`app.py`, lines 60-104): empty input is
rejected before the core runs (`.ok none`); syntax check and execution
run for Python only; `predict_bug` is wrapped in a bare `try`/`except`
yielding `prediction = None` on any failure; an exception escaping
`run_code_safely` propagates out of the handler (`.error`). -/
def analyzeCode (artifact : Option TrainedClassifier) (parseO : ParseOracle)
    (execO : ExecOracle) (language : String) (code : List Char) :
    Except PyExc (Option AnalysisRecord) :=
  if (stripped code).isEmpty then .ok none
  else
    let syntaxRes :=
      if language = "Python" then check_syntax parseO code
      else { valid := true, error := none }
    let features := extract_general_features code language
    let runtimeE :=
      if language = "Python" then run_code_safely execO code
      else .ok { success := true, error := some ("Execution skipped for " ++ language) }
    match runtimeE with
    | .error e => .error e
    | .ok runtimeRes =>
      .ok (some
        { language := language
          syntaxRes := syntaxRes
          runtime := runtimeRes
          features := features
          prediction := (predict_bugE artifact features).toOption
          score := score features })

/-! Concrete inputs used to instantiate the theorems below. -/

/-- The feature record of the empty Python snippet. -/
def frDemo : FeatureRecord :=
  extract_general_features [] "Python"

/-- A newline-free snippet. -/
def newlineFreeDemo : List Char :=
  "x = 1".toList

/-- A classifier artifact whose top class is 0 on every input. -/
def mDemo0 : TrainedClassifier :=
  { predict := fun _ => 0
    predict_proba := fun _ => ![7 / 10, 1 / 10, 1 / 10, 1 / 10] }

/-- A classifier artifact whose top class is 2 on every input, with a
probability distribution summing to 1. -/
def mDemo2 : TrainedClassifier :=
  { predict := fun _ => 2
    predict_proba := fun _ => ![1 / 10, 1 / 5, 3 / 5, 1 / 10] }

/-- Scenario 3's snippet, `"def f(:\n pass"`. -/
def syntaxErrCode : List Char :=
  "def f(:\n pass".toList

/-- `ast.parse` behaviour on Scenario 3's snippet: CPython raises
`SyntaxError` with `lineno = 1` and `msg = "invalid syntax"`. -/
def parseDemo : ParseOracle := fun c =>
  if c = syntaxErrCode then some { lineno := 1, msg := "invalid syntax" }
  else none

/-- A snippet whose execution raises `ZeroDivisionError` (Scenario 6). -/
def zeroDivCode : List Char :=
  "x = 1 / 0".toList

/-- A snippet raising `BaseException` itself: `Exception` is in the
allow-listed builtins of `run_code_safely`, and `Exception.__base__` is
`BaseException`, which does not derive from `Exception`, so the
`except Exception` clause does not match it. -/
def raiseBaseCode : List Char :=
  "raise Exception.__base__".toList

/-- CPython's `exec` behaviour on the two snippets above:
`1 / 0` raises `ZeroDivisionError("division by zero")` (an `Exception`);
`raise Exception.__base__` raises `BaseException()` (not an
`Exception`). -/
def execDemo : ExecOracle := fun c =>
  if c = zeroDivCode then
    .raises true { name := "ZeroDivisionError", msg := "division by zero" }
  else if c = raiseBaseCode then
    .raises false { name := "BaseException", msg := "" }
  else .ok

lemma splitNl_length (cs : List Char) :
    (splitNl cs).length = cs.count '\n' + 1 := by
  induction cs with
  | nil => simp [splitNl]
  | cons c cs ih =>
    by_cases h : c = '\n'
    · simpa [splitNl, h, List.count_cons] using ih
    · rcases hs : splitNl cs with _ | ⟨l, ls⟩
      · simp [hs] at ih
      · simp [splitNl, h, hs, List.count_cons] at ih ⊢
        omega

lemma abs_rhe_sub_le (x : ℚ) : |(rhe x : ℚ) - x| ≤ 1 / 2 := by
  have h0 : (⌊x⌋ : ℚ) ≤ x := Int.floor_le x
  have h1 : x < ⌊x⌋ + 1 := Int.lt_floor_add_one x
  unfold rhe
  by_cases h : x - ⌊x⌋ < 1 / 2
  · rw [if_pos h, abs_le]
    constructor <;> linarith
  · have ha : 1 / 2 ≤ x - ⌊x⌋ := not_lt.mp h
    rw [if_neg h]
    by_cases h2 : 1 / 2 < x - ⌊x⌋
    · rw [if_pos h2, abs_le]
      constructor <;> push_cast <;> linarith
    · have hb : x - ⌊x⌋ ≤ 1 / 2 := not_lt.mp h2
      rw [if_neg h2]
      by_cases h3 : ⌊x⌋ % 2 = 0
      · rw [if_pos h3, abs_le]
        constructor <;> linarith
      · rw [if_neg h3, abs_le]
        constructor <;> push_cast <;> linarith

lemma abs_pyRound1_sub_le (x : ℚ) : |pyRound1 x - x| ≤ 1 / 20 := by
  have h := abs_rhe_sub_le (10 * x)
  have e : pyRound1 x - x = ((rhe (10 * x) : ℚ) - 10 * x) / 10 := by
    unfold pyRound1; ring
  rw [e, abs_div, abs_of_pos (show (0 : ℚ) < 10 by norm_num),
    div_le_iff₀ (show (0 : ℚ) < 10 by norm_num)]
  linarith

lemma le_maxProb (p : Fin 4 → ℚ) (i : Fin 4) : p i ≤ maxProb p := by
  fin_cases i
  · exact le_trans (le_max_left _ _) (le_max_left _ _)
  · exact le_trans (le_max_right _ _) (le_max_left _ _)
  · exact le_trans (le_max_left _ _) (le_max_right _ _)
  · exact le_trans (le_max_right _ _) (le_max_right _ _)

lemma maxProb_eq_of_argmax (p : Fin 4 → ℚ) (t : Fin 4)
    (h : ∀ j, p j ≤ p t) : maxProb p = p t :=
  le_antisymm (max_le (max_le (h 0) (h 1)) (max_le (h 2) (h 3))) (le_maxProb p t)

/-- C7: for every code string and every language, the extracted
`complexity_score` equals `min(10, num_loops + num_functions)` exactly,
and is always in `[0, 10]` (the lower bound holds since the field is a
natural number). -/
theorem complexity_score_spec (code : List Char) (language : String) :
    (extract_general_features code language).complexity_score =
      min 10 ((extract_general_features code language).num_loops +
        (extract_general_features code language).num_functions) ∧
    (extract_general_features code language).complexity_score ≤ 10 :=
  ⟨rfl, Nat.min_le_left _ _⟩

/-- C8: `extract_general_features` is total — it is a Lean function
defined on every `(code, language)` pair (including the empty string and
non-parseable text), built from total operations, so it never fails and
always returns a `FeatureRecord` with all seven fields present and
non-null (presence is enforced by the structure type; the count fields
are naturals, hence `≥ 0`).  The remaining range constraints:
`num_lines ≥ 1`, `complexity_score ≤ 10`, and the constant placeholder
`avg_var_name_length = 5`. -/
theorem extract_total (code : List Char) (language : String) :
    1 ≤ (extract_general_features code language).num_lines ∧
    (extract_general_features code language).complexity_score ≤ 10 ∧
    (extract_general_features code language).avg_var_name_length = 5 := by
  refine ⟨?_, Nat.min_le_left _ _, rfl⟩
  show 1 ≤ (splitNl code).length
  rw [splitNl_length]
  omega

/-- C10: for every code string and every language, `num_lines` is at
least 1, and any newline-free string (in particular the empty string)
yields exactly 1 — strictly tighter than the declared `int ≥ 0` range. -/
theorem num_lines_lower_bound (code : List Char) (language : String) :
    1 ≤ (extract_general_features code language).num_lines ∧
    ('\n' ∉ code → (extract_general_features code language).num_lines = 1) := by
  have h : (extract_general_features code language).num_lines =
      code.count '\n' + 1 := splitNl_length code
  constructor
  · omega
  · intro hn
    rw [h, List.count_eq_zero.mpr hn]

theorem num_lines_lower_bound_witness :
    '\n' ∉ newlineFreeDemo ∧
    1 ≤ (extract_general_features newlineFreeDemo "Python").num_lines ∧
    (extract_general_features newlineFreeDemo "Python").num_lines = 1 :=
  ⟨by decide, (num_lines_lower_bound newlineFreeDemo "Python").1,
    (num_lines_lower_bound newlineFreeDemo "Python").2 (by decide)⟩

/-- C6: for every feature record within the data model's range
(`complexity_score ≤ 10`), the handler's score is exactly
`max(0, 100 - complexity_score*8)`, lies in `[0, 100]`, and the lower
clamp is never reached: the score is always at least 20. -/
theorem score_spec (fr : FeatureRecord) (h : fr.complexity_score ≤ 10) :
    score fr = max 0 (100 - (fr.complexity_score : Int) * 8) ∧
    score fr = 100 - (fr.complexity_score : Int) * 8 ∧
    0 ≤ score fr ∧ score fr ≤ 100 ∧ 20 ≤ score fr := by
  have h10 : (fr.complexity_score : Int) ≤ 10 := by exact_mod_cast h
  have h0 : (0 : Int) ≤ (fr.complexity_score : Int) := Int.natCast_nonneg _
  have hmax : score fr = 100 - (fr.complexity_score : Int) * 8 := by
    unfold score
    rw [max_eq_right (by linarith)]
  exact ⟨rfl, hmax, by rw [hmax]; linarith, by rw [hmax]; linarith,
    by rw [hmax]; linarith⟩

theorem score_spec_witness :
    frDemo.complexity_score ≤ 10 ∧
    (score frDemo = max 0 (100 - (frDemo.complexity_score : Int) * 8) ∧
      score frDemo = 100 - (frDemo.complexity_score : Int) * 8 ∧
      0 ≤ score frDemo ∧ score frDemo ≤ 100 ∧ 20 ≤ score frDemo) :=
  ⟨by decide, score_spec frDemo (by decide)⟩

/-- C1 counterexample: the class-0 entry of the lookup table is
`"No Bug (Clean Code)"`, not `"No Bug"` as the claim's quoted table
states — on an artifact predicting class 0 the result's label differs
from the claimed table entry. -/
theorem predict_label_table_counterexample :
    (predict_bug mDemo0 frDemo).bug_type = 0 ∧
    (predict_bug mDemo0 frDemo).label = "No Bug (Clean Code)" ∧
    (predict_bug mDemo0 frDemo).label ≠ "No Bug" :=
  ⟨rfl, rfl, by decide⟩

/-- C1 (amended): `predict_bug` maps the predicted class index to its
label and suggestion list via the static lookup tables, whose label
entries are `{0: "No Bug (Clean Code)", 1: "Performance Issue",
2: "Logical Error", 3: "Code Smell"}`; each class carries between 2 and
4 fixed remediation strings; in particular, when the model maps the
feature vector to class 2, the result has label `"Logical Error"` and a
suggestion list of length in `[2, 4]`. -/
theorem predict_label_table (m : TrainedClassifier) (fr : FeatureRecord) :
    (predict_bug m fr).label = BUG_LABELS (predict_bug m fr).bug_type ∧
    (predict_bug m fr).suggestions = BUG_SUGGESTIONS (predict_bug m fr).bug_type ∧
    BUG_LABELS 0 = "No Bug (Clean Code)" ∧
    BUG_LABELS 1 = "Performance Issue" ∧
    BUG_LABELS 2 = "Logical Error" ∧
    BUG_LABELS 3 = "Code Smell" ∧
    2 ≤ (predict_bug m fr).suggestions.length ∧
    (predict_bug m fr).suggestions.length ≤ 4 ∧
    ((predict_bug m fr).bug_type = 2 →
      (predict_bug m fr).label = "Logical Error" ∧
      2 ≤ (predict_bug m fr).suggestions.length ∧
      (predict_bug m fr).suggestions.length ≤ 4) := by
  have hlen : ∀ i : Fin 4,
      2 ≤ (BUG_SUGGESTIONS i).length ∧ (BUG_SUGGESTIONS i).length ≤ 4 := by
    decide
  have hlab : (predict_bug m fr).label = BUG_LABELS (predict_bug m fr).bug_type :=
    rfl
  have hsug : (predict_bug m fr).suggestions =
      BUG_SUGGESTIONS (predict_bug m fr).bug_type := rfl
  refine ⟨rfl, rfl, rfl, rfl, rfl, rfl, ?_, ?_, ?_⟩
  · rw [hsug]; exact (hlen _).1
  · rw [hsug]; exact (hlen _).2
  · intro h2
    refine ⟨?_, ?_, ?_⟩
    · rw [hlab, h2]; decide
    · rw [hsug]; exact (hlen _).1
    · rw [hsug]; exact (hlen _).2

theorem predict_label_table_witness :
    (predict_bug mDemo2 frDemo).bug_type = 2 ∧
    ((predict_bug mDemo2 frDemo).label = "Logical Error" ∧
      2 ≤ (predict_bug mDemo2 frDemo).suggestions.length ∧
      (predict_bug mDemo2 frDemo).suggestions.length ≤ 4) :=
  ⟨rfl, (predict_label_table mDemo2 frDemo).2.2.2.2.2.2.2.2 rfl⟩

/-- C2 counterexample: two `predict_bug` requests in one process perform
two loads of the artifact, contradicting "loaded at most once":
`predict_bug` begins with `model = load_model()` on every call and the
repository has no memoization. -/
theorem model_loaded_once_counterexample :
    (runRequests mDemo0 [frDemo, frDemo]).2 = 2 ∧
    ¬((runRequests mDemo0 [frDemo, frDemo]).2 ≤ 1) :=
  ⟨rfl, by decide⟩

/-- C2 (amended): across a sequence of `predict_bug` calls in one
process, the artifact is reloaded on every call — `n` requests perform
exactly `n` loads (there is no lazy memoized handle), each request using
the freshly loaded model. -/
theorem model_loaded_per_request (m : TrainedClassifier)
    (reqs : List FeatureRecord) :
    (runRequests m reqs).2 = reqs.length ∧
    (runRequests m reqs).1 = reqs.map (predict_bug m) := by
  induction reqs with
  | nil => exact ⟨rfl, rfl⟩
  | cons f fs ih =>
    constructor
    · show 1 + (runRequests m fs).2 = fs.length + 1
      rw [ih.1]
      omega
    · show predict_bug m f :: (runRequests m fs).1 =
        predict_bug m f :: fs.map (predict_bug m)
      rw [ih.2]

/-- C4: when the artifact cannot be located or loaded, `predict_bug`
fails with `ModelUnavailable`; the handler's bare `except` catches the
failure and the analysis runs to completion with `prediction = None`,
producing exactly the record a run with an available model would
produce except for the absent ML section — syntax and runtime results
are preserved unchanged and the analysis is never aborted. -/
theorem model_unavailable_graceful (m : TrainedClassifier)
    (parseO : ParseOracle) (execO : ExecOracle) (language : String)
    (code : List Char) (fr : FeatureRecord) :
    predict_bugE none fr = .error .ModelUnavailable ∧
    analyzeCode none parseO execO language code =
      (analyzeCode (some m) parseO execO language code).map
        (Option.map fun r => { r with prediction := none }) := by
  refine ⟨rfl, ?_⟩
  unfold analyzeCode
  cases hs : (stripped code).isEmpty with
  | true => simp [hs, Except.map]
  | false =>
    cases hr : (if language = "Python" then run_code_safely execO code
        else Except.ok
          { success := true
            error := some ("Execution skipped for " ++ language) }) with
    | error e => simp [hs, hr, Except.map]
    | ok r =>
      simp [hs, hr, Except.map, predict_bugE, load_model, Except.toOption]

/-- C5 counterexample: the snippet `raise Exception.__base__` (built
only from the allow-listed name `Exception`) raises `BaseException`,
which does not derive from `Exception`; the `except Exception` clause of
`run_code_safely` does not match it, so the exception escapes to the
caller instead of producing a `success = false` result. -/
theorem run_code_safely_counterexample :
    run_code_safely execDemo raiseBaseCode =
      .error { name := "BaseException", msg := "" } := by
  rfl

/-- C5 (amended): for every code string, `run_code_safely` returns
`success = true, error = none` when the snippet terminates normally,
and on any runtime failure raising an exception deriving from
`Exception` returns `success = false` with `error` the exception class
name followed by its message — in particular a `ZeroDivisionError`
yields `error = "ZeroDivisionError: " ++ msg`, which starts with
`"ZeroDivisionError:"`.  Only exceptions not deriving from `Exception`
(such as `BaseException` itself) escape to the caller. -/
theorem run_code_safely_catches (execO : ExecOracle) (code : List Char) :
    (execO code = .ok →
      run_code_safely execO code = .ok { success := true, error := none }) ∧
    (∀ e, execO code = .raises true e →
      run_code_safely execO code =
        .ok { success := false, error := some (e.name ++ ": " ++ e.msg) }) ∧
    (∀ msg, execO code = .raises true { name := "ZeroDivisionError", msg := msg } →
      run_code_safely execO code =
        .ok { success := false, error := some ("ZeroDivisionError: " ++ msg) }) ∧
    (∀ e, execO code = .raises false e →
      run_code_safely execO code = .error e) := by
  refine ⟨fun h => ?_, fun e h => ?_, fun msg h => ?_, fun e h => ?_⟩ <;>
    simp [run_code_safely, h]

theorem run_code_safely_catches_witness :
    execDemo zeroDivCode =
      .raises true { name := "ZeroDivisionError", msg := "division by zero" } ∧
    run_code_safely execDemo zeroDivCode =
      .ok { success := false
            error := some ("ZeroDivisionError: " ++ "division by zero") } :=
  ⟨by rfl, (run_code_safely_catches execDemo zeroDivCode).2.2.1
    "division by zero" (by rfl)⟩

/-- C9: for every code string, `check_syntax` returns
`valid = true, error = None` when `ast.parse` succeeds, and on a
`SyntaxError` returns `valid = false` with the human-readable message
`"Syntax Error at line {lineno}: {msg}"`, which names the failing line
number and the diagnostic text; the function returns a plain result in
both cases, so no exception crosses its boundary. -/
theorem check_syntax_spec (parseO : ParseOracle) (code : List Char) :
    (parseO code = none →
      check_syntax parseO code = { valid := true, error := none }) ∧
    (∀ e, parseO code = some e →
      ( check_syntax parseO code).valid = false ∧
      ( check_syntax parseO code).error =
        some ("Syntax Error at line " ++ toString e.lineno ++ ": " ++ e.msg)) := by
  refine ⟨fun h => ?_, fun e h => ?_⟩ <;> simp [ check_syntax, h]

theorem check_syntax_spec_witness :
    parseDemo syntaxErrCode = some { lineno := 1, msg := "invalid syntax" } ∧
    ( check_syntax parseDemo syntaxErrCode).valid = false ∧
    ( check_syntax parseDemo syntaxErrCode).error =
      some ("Syntax Error at line " ++ toString (1 : Nat) ++ ": " ++ "invalid syntax") :=
  ⟨by rfl,
    ((check_syntax_spec parseDemo syntaxErrCode).2
      { lineno := 1, msg := "invalid syntax" } (by rfl)).1,
    ((check_syntax_spec parseDemo syntaxErrCode).2
      { lineno := 1, msg := "invalid syntax" } (by rfl)).2⟩

/-- C3: for a feature record on which the artifact behaves as a
probabilistic classifier (its four probabilities sum to 1 and its
predicted class attains the maximum probability, the standard
`predict`/`predict_proba` coherence of the trained model), the result's
`confidence` equals the top class's probability scaled to 0-100 and
rounded to one decimal, the `all_probabilities` values (each scaled and
rounded the same way) sum to 100 within rounding tolerance (at most 0.05
per class, hence within 1/5), and `bug_type` attains the maximum of the
probability distribution (it is an argmax). -/
theorem predict_bug_probabilities (m : TrainedClassifier) (fr : FeatureRecord)
    (hsum : m.predict_proba (toFeatureVector fr) 0 +
      m.predict_proba (toFeatureVector fr) 1 +
      m.predict_proba (toFeatureVector fr) 2 +
      m.predict_proba (toFeatureVector fr) 3 = 1)
    (hcoh : ∀ j, m.predict_proba (toFeatureVector fr) j ≤
      m.predict_proba (toFeatureVector fr) (m.predict (toFeatureVector fr))) :
    (predict_bug m fr).confidence =
      pyRound1 (m.predict_proba (toFeatureVector fr)
        ((predict_bug m fr).bug_type) * 100) ∧
    |((predict_bug m fr).all_probabilities.map Prod.snd).sum - 100| ≤ 1 / 5 ∧
    m.predict_proba (toFeatureVector fr) ((predict_bug m fr).bug_type) =
      maxProb (m.predict_proba (toFeatureVector fr)) := by
  set p := m.predict_proba (toFeatureVector fr) with hp
  have hargmax : maxProb p = p (m.predict (toFeatureVector fr)) :=
    maxProb_eq_of_argmax p _ hcoh
  refine ⟨?_, ?_, hargmax.symm⟩
  · show pyRound1 (maxProb p * 100) = pyRound1 (p (m.predict (toFeatureVector fr)) * 100)
    rw [hargmax]
  · have hs4 : ((predict_bug m fr).all_probabilities.map Prod.snd).sum =
        pyRound1 (p 0 * 100) + (pyRound1 (p 1 * 100) +
          (pyRound1 (p 2 * 100) + (pyRound1 (p 3 * 100) + 0))) := rfl
    have b0 := abs_pyRound1_sub_le (p 0 * 100)
    have b1 := abs_pyRound1_sub_le (p 1 * 100)
    have b2 := abs_pyRound1_sub_le (p 2 * 100)
    have b3 := abs_pyRound1_sub_le (p 3 * 100)
    rw [abs_le] at b0 b1 b2 b3
    rw [hs4, abs_le]
    constructor <;> linarith

theorem predict_bug_probabilities_witness :
    (mDemo2.predict_proba (toFeatureVector frDemo) 0 +
      mDemo2.predict_proba (toFeatureVector frDemo) 1 +
      mDemo2.predict_proba (toFeatureVector frDemo) 2 +
      mDemo2.predict_proba (toFeatureVector frDemo) 3 = 1) ∧
    ((predict_bug mDemo2 frDemo).confidence =
      pyRound1 (mDemo2.predict_proba (toFeatureVector frDemo)
        ((predict_bug mDemo2 frDemo).bug_type) * 100) ∧
    |((predict_bug mDemo2 frDemo).all_probabilities.map Prod.snd).sum - 100| ≤ 1 / 5 ∧
    mDemo2.predict_proba (toFeatureVector frDemo)
        ((predict_bug mDemo2 frDemo).bug_type) =
      maxProb (mDemo2.predict_proba (toFeatureVector frDemo))) := by
  have hsum : mDemo2.predict_proba (toFeatureVector frDemo) 0 +
      mDemo2.predict_proba (toFeatureVector frDemo) 1 +
      mDemo2.predict_proba (toFeatureVector frDemo) 2 +
      mDemo2.predict_proba (toFeatureVector frDemo) 3 = 1 := by
    show (1 : ℚ) / 10 + 1 / 5 + 3 / 5 + 1 / 10 = 1
    norm_num
  have hcoh : ∀ j, mDemo2.predict_proba (toFeatureVector frDemo) j ≤
      mDemo2.predict_proba (toFeatureVector frDemo)
        (mDemo2.predict (toFeatureVector frDemo)) := by
    intro j
    fin_cases j
    · show (1 : ℚ) / 10 ≤ 3 / 5
      norm_num
    · show (1 : ℚ) / 5 ≤ 3 / 5
      norm_num
    · show (3 : ℚ) / 5 ≤ 3 / 5
      norm_num
    · show (1 : ℚ) / 10 ≤ 3 / 5
      norm_num
  exact ⟨hsum, predict_bug_probabilities mDemo2 frDemo hsum hcoh⟩
